import Mathlib

/-!
Shallow embedding of the pixcat core (size model, resize engine, protocol
encoder/transmitter, grid alignment, identifier assignment), translated from
src/pixcat/size.py, image.py, terminal.py, data.py and grid.py.

Python machine integers are modelled as ℤ (or ℕ where the source values are
provably non-negative); Python float division followed by math.ceil/math.floor
is modelled as exact rational ceiling/floor division; fallible code (asserts,
KeyError paths) returns Option.
-/

namespace Pixcat

/-- Integer ceiling division: the least integer not below a/b (for b > 0).
Models Python math.ceil applied to an exact quotient a/b. -/
def intCeilDiv (a b : ℤ) : ℤ := -((-a).fdiv b)

/-- Ceiling division on ℕ, used where all quantities are non-negative.
Models math.ceil of an exact quotient. -/
def ceilDivNat (a b : ℕ) : ℕ := (a + b - 1) / b

/-- The axis tag of a Size (size.py: kind is "width" or "height";
HSize has kind width, VSize has kind height). -/
inductive SizeKind
  | width
  | height
deriving DecidableEq

/-- size.py Size: one length kept simultaneously as a pixel value and a cell
count. The Python class stores self._px and self._cells; the kind selects
which terminal cell-pixel metric conversions use. -/
structure Size where
  kind  : SizeKind
  px    : ℤ
  cells : ℤ
deriving DecidableEq

/-- Size construction from a pixel count (size.py lines 14-16):
cells = math.ceil(px / cell_size). The terminal cell-pixel size cs is passed
explicitly (the Python reads it live from TERM); cs = 0 would raise
ZeroDivisionError in Python, theorems assume 0 < cs. -/
def Size.ofPx (cs : ℕ) (k : SizeKind) (px : ℤ) : Size :=
  ⟨k, px, intCeilDiv px cs⟩

/-- Size construction from a cell count (size.py lines 17-19):
px = math.ceil(cells * cell_size); cells and cs are integers so the ceil is
the product itself. -/
def Size.ofCells (cs : ℕ) (k : SizeKind) (c : ℤ) : Size :=
  ⟨k, c * cs, c⟩

/-- A Python operand of a Size operator: either a plain int or another Size
(int(other) returns other.px via Size.__int__). -/
inductive PyVal
  | int (n : ℤ)
  | size (s : Size)
deriving DecidableEq

/-- Python int(other) as used by every Size operator (size.py line 38-39). -/
def pyInt : PyVal → ℤ
  | .int n  => n
  | .size s => s.px

/-- Size.__add__: _from_px(self.px + int(other)); the sum is an integer so the
math.ceil in _from_px is the identity on it. -/
def Size.add (cs : ℕ) (a : Size) (other : PyVal) : Size :=
  Size.ofPx cs a.kind (a.px + pyInt other)

/-- Size.__sub__: _from_px(self.px - int(other)). -/
def Size.sub (cs : ℕ) (a : Size) (other : PyVal) : Size :=
  Size.ofPx cs a.kind (a.px - pyInt other)

/-- Size.__mul__: _from_px(self.px * int(other)). -/
def Size.mul (cs : ℕ) (a : Size) (other : PyVal) : Size :=
  Size.ofPx cs a.kind (a.px * pyInt other)

/-- Size.__floordiv__: _from_px(self.px // int(other)); Python // is floor
division, Int.fdiv. -/
def Size.floordiv (cs : ℕ) (a : Size) (other : PyVal) : Size :=
  Size.ofPx cs a.kind (a.px.fdiv (pyInt other))

/-- Size.__truediv__: _from_px(self.px / int(other)); true division followed
by the math.ceil inside _from_px, i.e. ceiling division. -/
def Size.truediv (cs : ℕ) (a : Size) (other : PyVal) : Size :=
  Size.ofPx cs a.kind (intCeilDiv a.px (pyInt other))

/-- Size.__pow__: _from_px(self.px ** int(other)); exponent taken as a
natural (Python returns a float for a negative exponent). -/
def Size.pow (cs : ℕ) (a : Size) (other : PyVal) : Size :=
  Size.ofPx cs a.kind (a.px ^ (pyInt other).toNat)

/-- Size.__eq__: self.px == int(other). -/
def Size.eqOp (a : Size) (other : PyVal) : Bool :=
  a.px == pyInt other

/-- Size.__gt__: self.px > int(other). -/
def Size.gtOp (a : Size) (other : PyVal) : Bool :=
  decide (pyInt other < a.px)

/-- Size.__floor__ (floor_cell): reduce px down to the nearest terminal cell,
_from_cells(math.floor(self.px / cell_size)). -/
def Size.floorCell (cs : ℕ) (a : Size) : Size :=
  Size.ofCells cs a.kind (a.px.fdiv cs)

/-- Size.__ceil__ (ceil_cell): increase px up to the nearest terminal cell,
_from_cells(math.ceil(self.px / cell_size)). -/
def Size.ceilCell (cs : ℕ) (a : Size) : Size :=
  Size.ofCells cs a.kind (intCeilDiv a.px cs)

namespace Image

/-- Image._negative_col_to_px / _negative_row_to_px (image.py lines 123-129):
a non-negative argument is returned unchanged, a negative one is interpreted
as a cell count and converted via cellPx * abs(num). -/
def negToPx (cellPx : ℕ) (num : ℤ) : ℕ :=
  if 0 ≤ num then num.toNat else cellPx * num.natAbs

/-- The target-size computation of Image.resize (image.py lines 146-185),
after the min/max defaults, asserts and negative-value conversion have been
applied; all values here are non-negative. Returns the (width, height) the
image will be resampled to (the source computes h first, then w from it). -/
def resizeCore (w h minW minH maxW maxH : ℕ) (stretch : Bool) : ℕ × ℕ :=
  if (w < minW ∨ h < minH) ∧ w < maxW ∧ h < maxH then
    if stretch then (minW, minH)
    else if minH ≤ minW then
      let h2 := min maxH (ceilDivNat (minW * h) w)
      (h2 * w / h, h2)
    else
      let w2 := min maxW (ceilDivNat (minH * w) h)
      (w2, w2 * h / w)
  else if maxW < w ∨ maxH < h then
    if stretch then (maxW, maxH)
    else if maxH ≤ maxW then
      let h2 := min maxH (ceilDivNat (maxW * h) w)
      (h2 * w / h, h2)
    else
      let w2 := min maxW (ceilDivNat (maxH * w) h)
      (w2, w2 * h / w)
  else (w, h)

/-- Image.resize (image.py lines 132-185) as far as the target-size decision:
applies the or-defaults for max_w/max_h (None or 0 falls back to the intrinsic
size), the min<=max asserts (returning none on violation, the Python
AssertionError), and the negative-cells-to-px conversion, then runs the
resize computation. w, h are the intrinsic dimensions. -/
def resize (cellW cellH w h : ℕ) (minW minH : ℤ) (maxW? maxH? : Option ℤ)
    (stretch : Bool) : Option (ℕ × ℕ) :=
  let maxW : ℤ := match maxW? with
    | none => (w : ℤ)
    | some m => if m = 0 then (w : ℤ) else m
  let maxH : ℤ := match maxH? with
    | none => (h : ℤ)
    | some m => if m = 0 then (h : ℤ) else m
  if minW ≤ maxW ∧ minH ≤ maxH then
    some (resizeCore w h (negToPx cellW minW) (negToPx cellH minH)
            (negToPx cellW maxW) (negToPx cellH maxH) stretch)
  else none

/-- Image.fit_screen (image.py lines 224-237): computes the (min_w, min_h)
and (max_w, max_h) argument pairs passed on to Image.resize.
h_margin/v_margin go through the negative-cells conversion and are multiplied
by 4; the maxima are the terminal pixel size minus those margins; the minima
are the maxima when enlarge is set, else (0, 0). -/
def fitScreenArgs (cellW cellH termPxW termPxH : ℕ) (hMargin vMargin : ℤ)
    (enlarge : Bool) : (ℤ × ℤ) × (ℤ × ℤ) :=
  let hm : ℤ := (negToPx cellW hMargin : ℕ) * 4
  let vm : ℤ := (negToPx cellH vMargin : ℕ) * 4
  let maxW : ℤ := (termPxW : ℤ) - hm
  let maxH : ℤ := (termPxH : ℤ) - vm
  ((if enlarge then (maxW, maxH) else ((0 : ℤ), (0 : ℤ))), (maxW, maxH))

/-- Image.__post_init__ identifier assignment (image.py line 67):
self.id = self.id or random.randint(1, 4294967295). A caller-provided nonzero
id is kept (0 and None are falsy), otherwise the single random draw is used;
no availability check is performed (the source marks it TODO). -/
def postInitId (provided : Option ℕ) (draw : ℕ) : ℕ :=
  match provided with
  | some n => if n ≠ 0 then n else draw
  | none => draw

/-- The identifiers of a sequence of Image constructions, each given its
caller-provided id (or none) and the value random.randint would return for
it; construction consults no shared pool, so the ids are independent. -/
def allocIds (entries : List (Option ℕ × ℕ)) : List ℕ :=
  entries.map fun e => postInitId e.1 e.2

end Image

/-- data.py ESC: the single control character 0x1B. -/
def ESC : String := String.mk [Char.ofNat 27]

/-- data.py ACTIONS_WITH_ANSWER: the actions for which kitty sends a response
on stdin. -/
def ACTIONS_WITH_ANSWER : List String := ["display", "transmit+display", "query"]

/-- Modelled from the spec: data.MIN_ID is referenced by get_code's id assert
but absent from the provided sources; the spec fixes the identifier range as
1 .. 2^32 - 1. -/
def MIN_ID : ℤ := 1

/-- Modelled from the spec: data.MAX_ID, the top of the identifier range
1 .. 2^32 - 1 (see MIN_ID). -/
def MAX_ID : ℤ := 4294967295

/-- A Python value passed as a control kwarg to get_code: the symbolic values
are strings, the id and geometry fields are ints. -/
inductive CtrlVal
  | str (s : String)
  | num (n : ℤ)
deriving DecidableEq

/-- How a control value is rendered into the f-string "k=v". -/
def CtrlVal.render : CtrlVal → String
  | .str s => s
  | .num n => toString n

/-- A control value used as a lookup key of an enumerated mapping must be a
string (an int would be a KeyError in the Python dict). -/
def CtrlVal.asStr : CtrlVal → Option String
  | .str s => some s
  | .num _ => none

/-- data.py IMAGE_CONTROLS action mapping. -/
def actionCode : String → Option String
  | "query"            => some "q"
  | "transmit"         => some "t"
  | "display"          => some "p"
  | "transmit+display" => some "T"
  | "delete"           => some "d"
  | _ => none

/-- data.py IMAGE_CONTROLS format mapping. -/
def formatCode : String → Option String
  | "rgb"  => some "24"
  | "rgba" => some "32"
  | "png"  => some "100"
  | _ => none

/-- data.py IMAGE_CONTROLS medium mapping. -/
def mediumCode : String → Option String
  | "direct"    => some "d"
  | "file"      => some "f"
  | "tempfile"  => some "t"
  | "sharedmem" => some "s"
  | _ => none

/-- data.py IMAGE_CONTROLS compress mapping. -/
def compressCode : String → Option String
  | "zlib" => some "z"
  | _ => none

/-- data.py IMAGE_CONTROLS chunks mapping. -/
def chunksCode : String → Option String
  | "partial" => some "1"
  | "final"   => some "0"
  | _ => none

/-- data.py IMAGE_CONTROLS del_target mapping. -/
def delTargetCode : String → Option String
  | "all"            => some "a"
  | "id"             => some "i"
  | "at_cursor"      => some "c"
  | "at_cell"        => some "p"
  | "at_cell_zindex" => some "q"
  | "at_cols"        => some "x"
  | "at_row"         => some "y"
  | _ => none

/-- data.py IMAGE_CONTROLS del_data_target mapping. -/
def delDataTargetCode : String → Option String
  | "all"            => some "A"
  | "id"             => some "I"
  | "at_cursor"      => some "C"
  | "at_cell"        => some "P"
  | "at_cell_zindex" => some "Q"
  | "at_cols"        => some "X"
  | "at_row"         => some "Y"
  | "at_zindex"      => some "Z"
  | _ => none

/-- Resolution of one control kwarg to its protocol letter and value code
(terminal.py get_code lines 67-72): keys with an enumerated mapping translate
the value through it, keys with an empty mapping pass the value through;
an unknown key or value is a KeyError, i.e. none. -/
def ctrlResolve (k : String) (v : CtrlVal) : Option (String × String) :=
  match k with
  | "action"          => (v.asStr.bind actionCode).map (fun c => ("a", c))
  | "format"          => (v.asStr.bind formatCode).map (fun c => ("f", c))
  | "medium"          => (v.asStr.bind mediumCode).map (fun c => ("t", c))
  | "compress"        => (v.asStr.bind compressCode).map (fun c => ("o", c))
  | "chunks"          => (v.asStr.bind chunksCode).map (fun c => ("m", c))
  | "id"              => some ("i", v.render)
  | "source_w"        => some ("s", v.render)
  | "source_h"        => some ("v", v.render)
  | "del_target"      => (v.asStr.bind delTargetCode).map (fun c => ("d", c))
  | "del_data_target" => (v.asStr.bind delDataTargetCode).map (fun c => ("d", c))
  | "offset_x"        => some ("X", v.render)
  | "offset_y"        => some ("Y", v.render)
  | "origin_x"        => some ("x", v.render)
  | "origin_y"        => some ("y", v.render)
  | "z_index"         => some ("z", v.render)
  | "crop_w"          => some ("w", v.render)
  | "crop_h"          => some ("h", v.render)
  | "fit_cols"        => some ("c", v.render)
  | "fit_rows"        => some ("r", v.render)
  | _ => none

/-- Python dict insertion: first occurrence keeps its position, a repeated key
overwrites the value (real_keys in get_code is a dict comprehension). -/
def dictInsert (l : List (String × String)) (kv : String × String) :
    List (String × String) :=
  if l.any (fun p => p.1 = kv.1) then
    l.map (fun p => if p.1 = kv.1 then (p.1, kv.2) else p)
  else l ++ [kv]

/-- Builds the real_keys dict of get_code from the resolved controls. -/
def buildDict (l : List (String × String)) : List (String × String) :=
  l.foldl dictInsert []

/-- One character of the standard base64 alphabet. -/
def b64char (n : ℕ) : Char :=
  if n < 26 then Char.ofNat (65 + n)
  else if n < 52 then Char.ofNat (97 + (n - 26))
  else if n < 62 then Char.ofNat (48 + (n - 52))
  else if n = 62 then Char.ofNat 43
  else Char.ofNat 47

/-- Standard base64 of a byte list (base64.b64encode, no line wrapping),
with = padding. -/
def b64encodeList : List ℕ → List Char
  | a :: b :: c :: rest =>
      b64char (a / 4) :: b64char (a % 4 * 16 + b / 16) ::
      b64char (b % 16 * 4 + c / 64) :: b64char (c % 64) :: b64encodeList rest
  | [a, b] =>
      [b64char (a / 4), b64char (a % 4 * 16 + b / 16), b64char (b % 16 * 4),
       Char.ofNat 61]
  | [a] =>
      [b64char (a / 4), b64char (a % 4 * 16), Char.ofNat 61, Char.ofNat 61]
  | [] => []

/-- UTF-8 encoding of one character (bytes(payload, "utf-8")). -/
def charUtf8 (c : Char) : List ℕ :=
  let n := c.toNat
  if n < 128 then [n]
  else if n < 2048 then [192 + n / 64, 128 + n % 64]
  else if n < 65536 then [224 + n / 4096, 128 + n / 64 % 64, 128 + n % 64]
  else [240 + n / 262144, 128 + n / 4096 % 64, 128 + n / 64 % 64, 128 + n % 64]

/-- UTF-8 bytes of a string. -/
def utf8Bytes (s : String) : List ℕ :=
  (s.data.map charUtf8).flatten

/-- base64.b64encode of a byte list, as a string. -/
def b64encode (bs : List ℕ) : String :=
  String.mk (b64encodeList bs)

/-- The id assert of get_code (terminal.py lines 64-65): when an "id" control
is present its value must lie in MIN_ID .. MAX_ID (comparing a string against
the int bounds would be a TypeError, also a failure). -/
def idOk (controls : List (String × CtrlVal)) : Bool :=
  match controls.lookup "id" with
  | none => true
  | some (.num n) => decide (MIN_ID ≤ n ∧ n ≤ MAX_ID)
  | some (.str _) => false

/-- PixTerminal.get_code (terminal.py lines 63-80): checks the id range,
resolves every control to letter=code, joins them with commas, base64-encodes
a non-empty payload and wraps everything in the escape-delimited frame
ESC _G keys ; payload ESC backslash. Returns none on the assert or a KeyError
(unknown control key or enumerated value). -/
def get_code (payload : String) (controls : List (String × CtrlVal)) :
    Option String :=
  if idOk controls then
    (controls.mapM (fun kv => ctrlResolve kv.1 kv.2)).map fun resolved =>
      let realKeys := buildDict resolved
      let keysStr := String.intercalate "," (realKeys.map fun kv => kv.1 ++ "=" ++ kv.2)
      let payloadStr := if payload = "" then payload else b64encode (utf8Bytes payload)
      ESC ++ "_G" ++ keysStr ++ ";" ++ payloadStr ++ ESC ++ "\\"
  else none

/-- Outcome of PixTerminal.run_code: normal return, KittyAnswerError carrying
the sent frame and the verbatim answer, or KittyAnswerTimeout. -/
inductive RunResult
  | ok
  | answerError (code : String) (answer : String)
  | answerTimeout
deriving DecidableEq

/-- The read loop of run_code (terminal.py lines 94-100): stdin is read one
character at a time and collected until a backslash arrives; the collected
reply is the prefix of the stream up to and including that first backslash.
A stream with no backslash never terminates the loop, which the alarm turns
into a timeout: none. -/
def collectReply : List Char → Option (List Char)
  | [] => none
  | c :: rest =>
      if c = Char.ofNat 92 then some [c]
      else (collectReply rest).map (fun l => c :: l)

/-- Python substring test (pat in s) on character lists. -/
def hasSub (pat : List Char) : List Char → Bool
  | [] => pat.isEmpty
  | c :: rest => pat.isPrefixOf (c :: rest) || hasSub pat rest

/-- Whether run_code reads a reply (terminal.py line 88):
controls.get("action", "transmit") must be one of ACTIONS_WITH_ANSWER.
An int-valued action is never a member of that string set. -/
def expectsAnswer (controls : List (String × CtrlVal)) : Bool :=
  match controls.lookup "action" with
  | some (.str s) => ACTIONS_WITH_ANSWER.contains s
  | some (.num _) => false
  | none => ACTIONS_WITH_ANSWER.contains "transmit"

/-- PixTerminal.run_code (terminal.py lines 83-107): builds and writes the
frame (a get_code failure propagates as none); for actions expecting an
answer, collects the reply with the alarm-based timeout; a collected answer
that is non-empty and lacks the ";OK" marker raises KittyAnswerError with the
frame and the answer; otherwise the call returns normally. The stream argument
models the characters available on stdin. -/
def run_code (payload : String) (controls : List (String × CtrlVal))
    (stream : List Char) : Option RunResult :=
  match get_code payload controls with
  | none => none
  | some code =>
    if expectsAnswer controls then
      match collectReply stream with
      | none => some .answerTimeout
      | some chars =>
        let answer := String.mk chars
        if answer ≠ "" ∧ hasSub ";OK".data chars = false then
          some (.answerError code answer)
        else some .ok
    else some .ok

/-- PixTerminal.detect_support (terminal.py lines 110-122): sends the probe
query with id 1; KittyAnswerError means supported (true), KittyAnswerTimeout
and a normal return both fall through to False. -/
def detect_support (stream : List Char) : Option Bool :=
  (run_code "" [("action", .str "query"), ("id", .num 1)] stream).map fun r =>
    match r with
    | .answerError _ _ => true
    | _ => false

/-- A grid Column/Row definition (grid.py lines 33-42): a Size plus an
alignment tag. -/
structure GridCell where
  size  : Size
  align : String

/-- Grid._get_align (grid.py lines 233-243): the intra-cell alignment offset,
as a Size. "left"/"top" yield a zero Size of the cell's type; "center" yields
(cell.size / 2 - child_size / 2).floor_cell(); "right"/"bottom" yield
(cell.size - child_size).floor_cell(); any other tag fails the assert. -/
def Grid.getAlign (cs : ℕ) (cell : GridCell) (child : Size) : Option Size :=
  if cell.align = "left" ∨ cell.align = "top" then
    some (Size.ofPx cs cell.size.kind 0)
  else if cell.align = "center" then
    some (Size.floorCell cs
      (Size.sub cs (Size.truediv cs cell.size (.int 2))
        (.size (Size.truediv cs child (.int 2)))))
  else if cell.align = "right" ∨ cell.align = "bottom" then
    some (Size.floorCell cs (Size.sub cs cell.size (.size child)))
  else none

/-! Helper lemmas. -/

/-- Converting a non-negative value leaves it unchanged. -/
theorem negToPx_natCast (cs n : ℕ) : Image.negToPx cs (n : ℤ) = n := by
  simp [Image.negToPx]

/-- Floor of an exact rational quotient of integers is Python floor division
(Int.fdiv), for a positive divisor. -/
theorem ratFloor_intCast_div (a n : ℤ) (hn : 0 < n) :
    ⌊(a : ℚ) / (n : ℚ)⌋ = a.fdiv n := by
  rw [Int.fdiv_eq_ediv _ hn.le]
  lift n to ℕ using hn.le with m
  exact_mod_cast Rat.floor_intCast_div_natCast a m

/-- Ceiling of an exact rational quotient of integers is intCeilDiv, for a
positive divisor. -/
theorem intCeilDiv_eq_ratCeil (a n : ℤ) (hn : 0 < n) :
    intCeilDiv a n = ⌈(a : ℚ) / (n : ℚ)⌉ := by
  have h1 : ⌈(a : ℚ) / (n : ℚ)⌉ = -⌊((-a : ℤ) : ℚ) / (n : ℚ)⌋ := by
    push_cast
    rw [neg_div, Int.floor_neg, neg_neg]
  rw [h1, ratFloor_intCast_div (-a) n hn, intCeilDiv]

/-- The read loop times out exactly when the stream holds no backslash. -/
theorem collectReply_eq_none (s : List Char) :
    collectReply s = none ↔ Char.ofNat 92 ∉ s := by
  induction s with
  | nil => simp [collectReply]
  | cons c rest ih =>
    by_cases hc : c = Char.ofNat 92
    · subst hc; simp [collectReply]
    · simp [collectReply, hc, ih, Ne.symm hc]

/-- A collected reply is never empty (it ends with the backslash read last). -/
theorem collectReply_ne_nil {s chars : List Char}
    (h : collectReply s = some chars) : chars ≠ [] := by
  induction s generalizing chars with
  | nil => simp [collectReply] at h
  | cons c rest ih =>
    by_cases hc : c = Char.ofNat 92
    · subst hc
      simp [collectReply] at h
      simp [← h]
    · simp [collectReply, hc] at h
      obtain ⟨l, _, rfl⟩ := h
      simp

/-- Key inequality structure of the resize computation: with valid
constraints, a stretch resize respects both maxima and any resize respects
the maximum of its driven (clamped) axis. -/
theorem resizeCore_driver_le (w h minW minH maxW maxH : ℕ) (stretch : Bool)
    (h1 : minW ≤ maxW) (h2 : minH ≤ maxH) :
    (stretch = true →
      (Image.resizeCore w h minW minH maxW maxH stretch).1 ≤ maxW ∧
      (Image.resizeCore w h minW minH maxW maxH stretch).2 ≤ maxH) ∧
    ((Image.resizeCore w h minW minH maxW maxH stretch).1 ≤ maxW ∨
      (Image.resizeCore w h minW minH maxW maxH stretch).2 ≤ maxH) := by
  unfold Image.resizeCore
  split_ifs with hc1 hs1 hm1 hc2 hs2 hm2 <;> dsimp only
  · exact ⟨fun _ => ⟨h1, h2⟩, Or.inl h1⟩
  · exact ⟨fun hst => absurd hst hs1, Or.inr (Nat.min_le_left _ _)⟩
  · exact ⟨fun hst => absurd hst hs1, Or.inl (Nat.min_le_left _ _)⟩
  · exact ⟨fun _ => ⟨le_refl _, le_refl _⟩, Or.inl (le_refl _)⟩
  · exact ⟨fun hst => absurd hst hs2, Or.inr (Nat.min_le_left _ _)⟩
  · exact ⟨fun hst => absurd hst hs2, Or.inl (Nat.min_le_left _ _)⟩
  · push_neg at hc2
    exact ⟨fun _ => ⟨hc2.1, hc2.2⟩, Or.inl hc2.1⟩

/-! Claim theorems. -/

/-- C1 counterexample: the claim fails on the code. With intrinsic (10, 100)
and valid positive constraints min = (20, 1), max = (100, 100), no resize
branch fires (the height is already at its maximum), so the intrinsic size is
returned with width 10 below min_w = 20 — for stretch false and true alike.
And with intrinsic (1000, 3), max = (500, 10), min = (1, 1), stretch = false,
the derived width 666 exceeds max_w = 500. -/
theorem resize_out_of_bounds :
    Image.resize 10 10 10 100 20 1 (some 100) (some 100) false = some (10, 100) ∧
    Image.resize 10 10 10 100 20 1 (some 100) (some 100) true = some (10, 100) ∧
    ¬ (20 ≤ 10) ∧
    Image.resize 10 10 1000 3 1 1 (some 500) (some 10) false = some (666, 2) ∧
    ¬ (666 ≤ 500) := by decide

/-- C1 (amended): for every intrinsic size and valid positive constraints the
resize computation succeeds, and: with stretch the result respects both
maxima; without stretch the driven (clamped) axis respects its maximum, so at
least one axis is always within its maximum. The minima and the derived
axis's maximum are not guaranteed. -/
theorem resize_bounds (cellW cellH w h minW minH maxW maxH : ℕ)
    (stretch : Bool) (hw : 0 < w) (hh : 0 < h) (hminW : 0 < minW)
    (hminH : 0 < minH) (hmaxW : 0 < maxW) (hmaxH : 0 < maxH)
    (h1 : minW ≤ maxW) (h2 : minH ≤ maxH) :
    ∃ p : ℕ × ℕ,
      Image.resize cellW cellH w h (minW : ℤ) (minH : ℤ)
          (some (maxW : ℤ)) (some (maxH : ℤ)) stretch = some p ∧
      (stretch = true → p.1 ≤ maxW ∧ p.2 ≤ maxH) ∧
      (p.1 ≤ maxW ∨ p.2 ≤ maxH) := by
  have hmw : ((maxW : ℤ)) ≠ 0 := by exact_mod_cast hmaxW.ne'
  have hmh : ((maxH : ℤ)) ≠ 0 := by exact_mod_cast hmaxH.ne'
  have e1 : Image.resize cellW cellH w h (minW : ℤ) (minH : ℤ)
      (some (maxW : ℤ)) (some (maxH : ℤ)) stretch =
      some (Image.resizeCore w h minW minH maxW maxH stretch) := by
    unfold Image.resize
    dsimp only
    rw [if_neg hmw, if_neg hmh,
      if_pos ⟨by exact_mod_cast h1, by exact_mod_cast h2⟩,
      negToPx_natCast, negToPx_natCast, negToPx_natCast, negToPx_natCast]
  refine ⟨Image.resizeCore w h minW minH maxW maxH stretch, e1, ?_, ?_⟩
  · exact (resizeCore_driver_le w h minW minH maxW maxH stretch h1 h2).1
  · exact (resizeCore_driver_le w h minW minH maxW maxH stretch h1 h2).2

/-- C1 witness: the amended bound theorem applied at a concrete input. -/
theorem resize_bounds_witness :
    ∃ p : ℕ × ℕ,
      Image.resize 7 7 2 2 ((1 : ℕ) : ℤ) ((1 : ℕ) : ℤ)
          (some ((3 : ℕ) : ℤ)) (some ((3 : ℕ) : ℤ)) false = some p ∧
      (false = true → p.1 ≤ 3 ∧ p.2 ≤ 3) ∧
      (p.1 ≤ 3 ∨ p.2 ≤ 3) :=
  resize_bounds 7 7 2 2 1 1 3 3 false (by decide) (by decide) (by decide)
    (by decide) (by decide) (by decide) (by decide) (by decide)

/-- C3 counterexample: fit_screen without enlarge passes min = (0, 0) to
resize, not (1, 1). -/
theorem fit_screen_min_counterexample :
    Image.fitScreenArgs 10 20 1000 500 0 0 false = ((0, 0), (1000, 500)) ∧
    ((0 : ℤ), (0 : ℤ)) ≠ ((1 : ℤ), (1 : ℤ)) := by decide

/-- C3 (amended): for non-negative margins, fit_screen invokes resize with
max_w = terminal pixel width - 4 * h_margin, max_h = terminal pixel height -
4 * v_margin, and min = max when enlarge is set, else min = (0, 0). -/
theorem fit_screen_args_spec (cellW cellH tW tH : ℕ) (hm vm : ℤ)
    (enlarge : Bool) (h1 : 0 ≤ hm) (h2 : 0 ≤ vm) :
    Image.fitScreenArgs cellW cellH tW tH hm vm enlarge =
      ((if enlarge then ((tW : ℤ) - 4 * hm, (tH : ℤ) - 4 * vm) else (0, 0)),
       ((tW : ℤ) - 4 * hm, (tH : ℤ) - 4 * vm)) := by
  unfold Image.fitScreenArgs Image.negToPx
  rw [if_pos h1, if_pos h2]
  rw [Int.toNat_of_nonneg h1, Int.toNat_of_nonneg h2]
  cases enlarge <;> simp [Prod.ext_iff, mul_comm]

/-- C3 witness: the amended argument equation at a concrete input. -/
theorem fit_screen_args_spec_witness :
    Image.fitScreenArgs 3 5 1000 500 2 1 true =
      ((if true then (((1000 : ℕ) : ℤ) - 4 * 2, ((500 : ℕ) : ℤ) - 4 * 1)
          else (0, 0)),
       (((1000 : ℕ) : ℤ) - 4 * 2, ((500 : ℕ) : ℤ) - 4 * 1)) :=
  fit_screen_args_spec 3 5 1000 500 2 1 true (by decide) (by decide)

/-- C4 counterexample: mixing axes does not fail — every operator coerces the
other Size to its pixel value via int() and produces a normal result of the
left operand's axis; comparisons likewise return plain booleans. -/
theorem size_mixed_axis_counterexample :
    Size.add 2 ⟨.width, 6, 3⟩ (.size ⟨.height, 4, 2⟩) = ⟨.width, 10, 5⟩ ∧
    Size.sub 2 ⟨.width, 6, 3⟩ (.size ⟨.height, 4, 2⟩) = ⟨.width, 2, 1⟩ ∧
    Size.mul 2 ⟨.width, 6, 3⟩ (.size ⟨.height, 4, 2⟩) = ⟨.width, 24, 12⟩ ∧
    Size.truediv 2 ⟨.width, 6, 3⟩ (.size ⟨.height, 4, 2⟩) = ⟨.width, 2, 1⟩ ∧
    Size.floordiv 2 ⟨.width, 6, 3⟩ (.size ⟨.height, 4, 2⟩) = ⟨.width, 1, 1⟩ ∧
    Size.pow 2 ⟨.width, 6, 3⟩ (.size ⟨.height, 4, 2⟩) = ⟨.width, 1296, 648⟩ ∧
    Size.eqOp ⟨.width, 6, 3⟩ (.size ⟨.height, 6, 3⟩) = true ∧
    Size.gtOp ⟨.width, 6, 3⟩ (.size ⟨.height, 4, 2⟩) = true := by decide

/-- C4 (amended): applying an arithmetic or comparison operator to mixed-axis
operands succeeds: the right operand contributes its pixel value through
int(), the result is a Size of the left operand's axis (comparisons return
booleans on the pixel values); no axis check is performed. -/
theorem size_mixed_axis_ops (cs : ℕ) (a b : Size) (hk : a.kind ≠ b.kind) :
    ((Size.add cs a (.size b)).kind = a.kind ∧
      (Size.add cs a (.size b)).px = a.px + b.px) ∧
    ((Size.sub cs a (.size b)).kind = a.kind ∧
      (Size.sub cs a (.size b)).px = a.px - b.px) ∧
    ((Size.mul cs a (.size b)).kind = a.kind ∧
      (Size.mul cs a (.size b)).px = a.px * b.px) ∧
    (Size.truediv cs a (.size b)).kind = a.kind ∧
    (Size.floordiv cs a (.size b)).kind = a.kind ∧
    (Size.pow cs a (.size b)).kind = a.kind ∧
    Size.eqOp a (.size b) = decide (a.px = b.px) ∧
    Size.gtOp a (.size b) = decide (b.px < a.px) := by
  refine ⟨⟨rfl, rfl⟩, ⟨rfl, rfl⟩, ⟨rfl, rfl⟩, rfl, rfl, rfl, ?_, rfl⟩
  by_cases hpx : a.px = b.px <;> simp [Size.eqOp, pyInt, hpx]

/-- C4 witness: the amended operator laws at concrete mixed-axis operands. -/
theorem size_mixed_axis_ops_witness :
    ((Size.add 2 ⟨.width, 6, 3⟩ (.size ⟨.height, 4, 2⟩)).kind =
        (Size.mk .width 6 3).kind ∧
      (Size.add 2 ⟨.width, 6, 3⟩ (.size ⟨.height, 4, 2⟩)).px =
        (Size.mk .width 6 3).px + (Size.mk .height 4 2).px) ∧
    ((Size.sub 2 ⟨.width, 6, 3⟩ (.size ⟨.height, 4, 2⟩)).kind =
        (Size.mk .width 6 3).kind ∧
      (Size.sub 2 ⟨.width, 6, 3⟩ (.size ⟨.height, 4, 2⟩)).px =
        (Size.mk .width 6 3).px - (Size.mk .height 4 2).px) ∧
    ((Size.mul 2 ⟨.width, 6, 3⟩ (.size ⟨.height, 4, 2⟩)).kind =
        (Size.mk .width 6 3).kind ∧
      (Size.mul 2 ⟨.width, 6, 3⟩ (.size ⟨.height, 4, 2⟩)).px =
        (Size.mk .width 6 3).px * (Size.mk .height 4 2).px) ∧
    (Size.truediv 2 ⟨.width, 6, 3⟩ (.size ⟨.height, 4, 2⟩)).kind =
      (Size.mk .width 6 3).kind ∧
    (Size.floordiv 2 ⟨.width, 6, 3⟩ (.size ⟨.height, 4, 2⟩)).kind =
      (Size.mk .width 6 3).kind ∧
    (Size.pow 2 ⟨.width, 6, 3⟩ (.size ⟨.height, 4, 2⟩)).kind =
      (Size.mk .width 6 3).kind ∧
    Size.eqOp ⟨.width, 6, 3⟩ (.size ⟨.height, 4, 2⟩) =
      decide ((Size.mk .width 6 3).px = (Size.mk .height 4 2).px) ∧
    Size.gtOp ⟨.width, 6, 3⟩ (.size ⟨.height, 4, 2⟩) =
      decide ((Size.mk .height 4 2).px < (Size.mk .width 6 3).px) :=
  size_mixed_axis_ops 2 ⟨.width, 6, 3⟩ ⟨.height, 4, 2⟩ (by decide)

/-- C7: the two worked resize examples of the spec. Intrinsic 100 x 50 with
min = (200, 0), max = (400, 400), stretch false gives (200, 100); intrinsic
400 x 400 with max = (100, 200) gives (100, 100). -/
theorem resize_worked_examples :
    Image.resize 10 10 100 50 200 0 (some 400) (some 400) false =
      some (200, 100) ∧
    Image.resize 10 10 400 400 1 1 (some 100) (some 200) false =
      some (100, 100) := by decide

/-- C9 counterexample: identifier assignment keeps no pool and never retries;
two constructions whose random draws coincide (draw 7, within the range
1 .. 4294967295, and 2 constructions do not exceed the range size) yield the
same identifier for two concurrently live handles. -/
theorem image_id_collision :
    Image.allocIds [(none, 7), (none, 7)] = [7, 7] ∧
    ¬ ([7, 7] : List ℕ).Nodup ∧
    (1 ≤ 7 ∧ 7 ≤ 4294967295) ∧ 2 ≤ 4294967295 := by decide

/-- C9 (amended): the identifier of each construction is the caller-provided
id when nonzero, else its single random draw, with no collision check; so
uniqueness among live handles holds when every construction provides an
explicit nonzero id and those ids are pairwise distinct. -/
theorem image_id_unique_when_provided (entries : List (Option ℕ × ℕ))
    (hall : ∀ e ∈ entries, e.1 ≠ none ∧ e.1 ≠ some 0)
    (hnd : (entries.map Prod.fst).Nodup) :
    (Image.allocIds entries).Nodup := by
  have h1 : Image.allocIds entries =
      (entries.map Prod.fst).map (fun o => o.getD 0) := by
    unfold Image.allocIds
    rw [List.map_map]
    apply List.map_congr_left
    intro e he
    obtain ⟨h2, h3⟩ := hall e he
    cases h4 : e.1 with
    | none => exact absurd h4 h2
    | some n =>
      have h5 : n ≠ 0 := fun h0 => h3 (h0 ▸ h4)
      simp [Image.postInitId, h4, h5]
  rw [h1]
  apply hnd.map_on
  intro x hx y hy hxy
  obtain ⟨ex, hex, rfl⟩ := List.mem_map.mp hx
  obtain ⟨ey, hey, rfl⟩ := List.mem_map.mp hy
  obtain ⟨hx1, _⟩ := hall ex hex
  obtain ⟨hy1, _⟩ := hall ey hey
  obtain ⟨a, ha⟩ := Option.ne_none_iff_exists'.mp hx1
  obtain ⟨b, hb⟩ := Option.ne_none_iff_exists'.mp hy1
  rw [ha, hb] at hxy ⊢
  simpa using hxy

/-- C9 witness: distinct caller-provided nonzero ids give distinct
identifiers even when the random draws collide. -/
theorem image_id_unique_when_provided_witness :
    (Image.allocIds [(some 1, 9), (some 2, 9)]).Nodup :=
  image_id_unique_when_provided [(some 1, 9), (some 2, 9)] (by decide)
    (by decide)

/-- C10: Size arithmetic rounds up to whole pixels: (s + n).px = s.px + n,
(s * n).px = s.px * n, (s / n).px = ceil(s.px / n), (s // n).px =
floor(s.px / n), and a Size built from c cells has px = ceil(c * cs);
true division never truncates down. -/
theorem size_rounding_laws (cs : ℕ) (s : Size) (n : ℤ) (c : ℤ) (k : SizeKind)
    (hcs : 0 < cs) (hn : 0 < n) :
    (Size.add cs s (.int n)).px = s.px + n ∧
    (Size.mul cs s (.int n)).px = s.px * n ∧
    (Size.truediv cs s (.int n)).px = ⌈(s.px : ℚ) / (n : ℚ)⌉ ∧
    (Size.floordiv cs s (.int n)).px = ⌊(s.px : ℚ) / (n : ℚ)⌋ ∧
    (Size.ofCells cs k c).px = ⌈(c : ℚ) * (cs : ℚ)⌉ := by
  refine ⟨rfl, rfl, ?_, ?_, ?_⟩
  · show intCeilDiv s.px n = ⌈(s.px : ℚ) / (n : ℚ)⌉
    exact intCeilDiv_eq_ratCeil s.px n hn
  · show s.px.fdiv n = ⌊(s.px : ℚ) / (n : ℚ)⌋
    exact (ratFloor_intCast_div s.px n hn).symm
  · show c * (cs : ℤ) = ⌈(c : ℚ) * (cs : ℚ)⌉
    rw [show (c : ℚ) * (cs : ℚ) = ((c * (cs : ℤ) : ℤ) : ℚ) by push_cast; ring,
      Int.ceil_intCast]

/-- C2 counterexample: a terminal reply carrying the success marker ";OK" is
a protocol-shaped reply, yet detect_support returns false for it (run_code
returns normally, so the KittyAnswerError handler that yields true is never
reached). -/
theorem detect_support_ok_reply :
    collectReply ";OK\\".data = some ";OK\\".data ∧
    detect_support ";OK\\".data = some false := by
  exact ⟨rfl, rfl⟩

/-- C2 (amended): detect_support returns true exactly for a collected reply
lacking the ";OK" marker (the KittyAnswerError case); it returns false both
on timeout (no reply before the alarm) and on a reply containing ";OK". -/
theorem detect_support_iff (stream : List Char) :
    (∀ chars, collectReply stream = some chars →
      detect_support stream = some (!(hasSub ";OK".data chars))) ∧
    (collectReply stream = none → detect_support stream = some false) := by
  have hg : get_code "" [("action", CtrlVal.str "query"), ("id", CtrlVal.num 1)] =
      some (ESC ++ "_G" ++ "a=q,i=1" ++ ";" ++ "" ++ ESC ++ "\\") := rfl
  have ha : expectsAnswer [("action", CtrlVal.str "query"), ("id", CtrlVal.num 1)] =
      true := rfl
  constructor
  · intro chars hcr
    have hne : chars ≠ [] := collectReply_ne_nil hcr
    have hne' : String.mk chars ≠ "" := by
      intro hcon
      exact hne (by simpa [String.ext_iff] using hcon)
    cases hv : hasSub ";OK".data chars
    · simp [detect_support, run_code, hg, ha, hcr, hv, hne']
    · simp [detect_support, run_code, hg, ha, hcr, hv]
  · intro hcr
    simp [detect_support, run_code, hg, ha, hcr]

/-- C2 witness: the amended characterization for a concrete error reply. -/
theorem detect_support_iff_witness :
    detect_support "no\\".data = some (!(hasSub ";OK".data "no\\".data)) :=
  (detect_support_iff "no\\".data).1 "no\\".data rfl

/-- C5: encoding the example frame succeeds and is exactly
ESC _G a=T,f=100,t=f,i=42 ; base64("/tmp/x.png") ESC backslash, and the
base64 of "/tmp/x.png" is "L3RtcC94LnBuZw==". The claim is spec-modelled in
one respect: MIN_ID/MAX_ID, consulted by the id assert, are taken from the
spec's identifier range (42 lies inside it). -/
theorem get_code_example :
    get_code "/tmp/x.png"
      [("action", .str "transmit+display"), ("format", .str "png"),
       ("medium", .str "file"), ("id", .num 42)] =
      some (ESC ++ "_G" ++ "a=T,f=100,t=f,i=42" ++ ";" ++ "L3RtcC94LnBuZw==" ++
        ESC ++ "\\") ∧
    b64encode (utf8Bytes "/tmp/x.png") = "L3RtcC94LnBuZw==" := by
  exact ⟨rfl, rfl⟩

/-- C6: for a frame whose action expects an answer, a stream with no frame
terminator times out (KittyAnswerTimeout), a collected reply lacking the
";OK" marker raises KittyAnswerError carrying the original frame and the
verbatim reply; for any other action run_code returns normally without
reading the stream at all. -/
theorem run_code_reply_protocol (payload : String)
    (controls : List (String × CtrlVal)) (stream : List Char) (code : String)
    (hg : get_code payload controls = some code) :
    (expectsAnswer controls = true →
      (Char.ofNat 92 ∉ stream →
        run_code payload controls stream = some .answerTimeout) ∧
      (∀ chars, collectReply stream = some chars →
        hasSub ";OK".data chars = false →
        run_code payload controls stream =
          some (.answerError code (String.mk chars)))) ∧
    (expectsAnswer controls = false →
      run_code payload controls stream = some .ok ∧
      ∀ s2, run_code payload controls s2 = run_code payload controls stream) := by
  constructor
  · intro ha
    constructor
    · intro hnb
      have hcr : collectReply stream = none := (collectReply_eq_none stream).mpr hnb
      simp [run_code, hg, ha, hcr]
    · intro chars hcr hok
      have hne : chars ≠ [] := collectReply_ne_nil hcr
      have hne' : String.mk chars ≠ "" := by
        intro hcon
        exact hne (by simpa [String.ext_iff] using hcon)
      simp [run_code, hg, ha, hcr, hok, hne']
  · intro ha
    refine ⟨by simp [run_code, hg, ha], fun s2 => by simp [run_code, hg, ha]⟩

/-- C6 witness: the reply protocol at the concrete probe frame and a concrete
error reply. -/
theorem run_code_reply_protocol_witness :
    run_code "" [("action", CtrlVal.str "query"), ("id", CtrlVal.num 1)]
        "ab\\".data =
      some (.answerError (ESC ++ "_G" ++ "a=q,i=1" ++ ";" ++ "" ++ ESC ++ "\\")
        (String.mk "ab\\".data)) :=
  ((run_code_reply_protocol ""
      [("action", CtrlVal.str "query"), ("id", CtrlVal.num 1)]
      "ab\\".data (ESC ++ "_G" ++ "a=q,i=1" ++ ";" ++ "" ++ ESC ++ "\\")
      rfl).1 rfl).2 "ab\\".data rfl rfl

/-- C8 counterexample: with cell pixel size 1, a cell of 5 px and content of
2 px, center alignment yields offset 2 px (ceil(5/2) - ceil(2/2) = 3 - 1),
not floor((5 - 2) / 2) = 1 as the claim states. -/
theorem grid_align_center_counterexample :
    Grid.getAlign 1 ⟨Size.ofPx 1 .width 5, "center"⟩ (Size.ofPx 1 .width 2) =
      some ⟨.width, 2, 2⟩ ∧
    ((5 : ℤ) - 2) / 2 = 1 ∧ (2 : ℤ) ≠ 1 := by decide

/-- Deviation of the code's centering from floor((c - s) / 2): the difference
of the rounded-up halves exceeds it by exactly one when c is odd and s is
even. -/
theorem ceil_half_sub (c s : ℤ) :
    intCeilDiv c 2 - intCeilDiv s 2 =
      (c - s) / 2 + (if c % 2 = 0 ∨ s % 2 ≠ 0 then 0 else 1) := by
  unfold intCeilDiv
  rw [Int.fdiv_eq_ediv _ (by norm_num), Int.fdiv_eq_ediv _ (by norm_num)]
  split_ifs with hsplit
  · omega
  · omega

/-- C8 (amended): per axis, "left"/"top" align to offset 0;
"right"/"bottom" align to cellSize - contentSize floored to a whole cell;
"center" aligns to ceil(cellSize/2) - ceil(contentSize/2) floored to a whole
cell, which exceeds the claimed floor((cellSize - contentSize)/2) by one
pixel (before cell flooring) exactly when cellSize is odd and contentSize is
even. -/
theorem grid_align_spec (cs : ℕ) (k : SizeKind) (c s : ℤ)
    (hcs : 0 < cs) (hs : 0 ≤ s) (hsc : s ≤ c) :
    (∀ al ∈ ["left", "top"],
      Grid.getAlign cs ⟨Size.ofPx cs k c, al⟩ (Size.ofPx cs k s) =
        some ⟨k, 0, 0⟩) ∧
    Grid.getAlign cs ⟨Size.ofPx cs k c, "center"⟩ (Size.ofPx cs k s) =
      some ⟨k, (intCeilDiv c 2 - intCeilDiv s 2).fdiv cs * cs,
        (intCeilDiv c 2 - intCeilDiv s 2).fdiv cs⟩ ∧
    intCeilDiv c 2 - intCeilDiv s 2 =
      (c - s) / 2 + (if c % 2 = 0 ∨ s % 2 ≠ 0 then 0 else 1) ∧
    (∀ al ∈ ["right", "bottom"],
      Grid.getAlign cs ⟨Size.ofPx cs k c, al⟩ (Size.ofPx cs k s) =
        some ⟨k, (c - s).fdiv cs * cs, (c - s).fdiv cs⟩) := by
  refine ⟨?_, ?_, ceil_half_sub c s, ?_⟩
  · intro al hal
    simp only [List.mem_cons, List.not_mem_nil, or_false] at hal
    rcases hal with rfl | rfl
    · simp [Grid.getAlign, Size.ofPx, intCeilDiv]
    · simp [Grid.getAlign, Size.ofPx, intCeilDiv]
  · simp [Grid.getAlign, Size.floorCell, Size.sub, Size.truediv, Size.ofPx,
      Size.ofCells, pyInt]
  · intro al hal
    simp only [List.mem_cons, List.not_mem_nil, or_false] at hal
    rcases hal with rfl | rfl
    · simp [Grid.getAlign, Size.floorCell, Size.sub, Size.ofPx, Size.ofCells,
        pyInt]
    · simp [Grid.getAlign, Size.floorCell, Size.sub, Size.ofPx, Size.ofCells,
        pyInt]

/-- C8 witness: the amended alignment law at a concrete cell and content. -/
theorem grid_align_spec_witness :
    (∀ al ∈ ["left", "top"],
      Grid.getAlign 1 ⟨Size.ofPx 1 .width 5, al⟩ (Size.ofPx 1 .width 2) =
        some ⟨.width, 0, 0⟩) ∧
    Grid.getAlign 1 ⟨Size.ofPx 1 .width 5, "center"⟩ (Size.ofPx 1 .width 2) =
      some ⟨.width, (intCeilDiv 5 2 - intCeilDiv 2 2).fdiv 1 * 1,
        (intCeilDiv 5 2 - intCeilDiv 2 2).fdiv 1⟩ ∧
    intCeilDiv 5 2 - intCeilDiv 2 2 =
      ((5 : ℤ) - 2) / 2 + (if (5 : ℤ) % 2 = 0 ∨ (2 : ℤ) % 2 ≠ 0 then 0 else 1) ∧
    (∀ al ∈ ["right", "bottom"],
      Grid.getAlign 1 ⟨Size.ofPx 1 .width 5, al⟩ (Size.ofPx 1 .width 2) =
        some ⟨.width, ((5 : ℤ) - 2).fdiv 1 * 1, ((5 : ℤ) - 2).fdiv 1⟩) :=
  grid_align_spec 1 .width 5 2 (by decide) (by decide) (by decide)

/-- C10 witness: the rounding laws at a concrete Size and divisor. -/
theorem size_rounding_laws_witness :
    (Size.add 3 ⟨.width, 7, 3⟩ (.int 2)).px = (Size.mk .width 7 3).px + 2 ∧
    (Size.mul 3 ⟨.width, 7, 3⟩ (.int 2)).px = (Size.mk .width 7 3).px * 2 ∧
    (Size.truediv 3 ⟨.width, 7, 3⟩ (.int 2)).px =
      ⌈((Size.mk .width 7 3).px : ℚ) / ((2 : ℤ) : ℚ)⌉ ∧
    (Size.floordiv 3 ⟨.width, 7, 3⟩ (.int 2)).px =
      ⌊((Size.mk .width 7 3).px : ℚ) / ((2 : ℤ) : ℚ)⌋ ∧
    (Size.ofCells 3 .height 5).px = ⌈((5 : ℤ) : ℚ) * ((3 : ℕ) : ℚ)⌉ :=
  size_rounding_laws 3 ⟨.width, 7, 3⟩ 2 5 .height (by decide) (by decide)

end Pixcat
